import Mathlib

/-!
# Admin server lifecycle (`pkg/admin/server/server.go`)

A shallow embedding of the admin server lifecycle manager: `New`, `Start`,
`Stop`, `getAddress` and the serving goroutine launched by `Start`.

The Go code is effectful.  Every effect it performs on its surroundings is
recorded, in program order, in a `World` (a list of `Effect`s).  The two
primitives whose results the code branches on, the package variable `netListen`
and the `Close` method of the listener, are taken from an environment `Env`;
their result may depend on everything that happened before.
-/

namespace adminserver

/-! ## Data model -/

/-- A Go `error` value that is not nil. -/
structure GoError where
  text : String
deriving DecidableEq, Repr

/-- A `net.Listener` that is not nil: a handle and the address that `Addr()` reports. -/
structure Listener where
  id : Nat
  addr : String
deriving DecidableEq, Repr

/-- Severity attached by `level.Info` and `level.Error`. -/
inductive Level where
  | info
  | error
deriving DecidableEq, Repr

/-- A value of a key/value pair handed to the logger. -/
inductive LogVal where
  | str (s : String)
  | err (e : GoError)
deriving DecidableEq, Repr

/-- One call `level.X(s.logger).Log("msg", msg, key, val)`. -/
structure LogEvent where
  level : Level
  msg : String
  key : String
  val : LogVal
deriving DecidableEq, Repr

/-- The effects of the package, as seen from outside. -/
inductive Effect where
  /-- a call `netListen(network, address)` -/
  | listen (network address : String)
  /-- a write of the `active` field -/
  | setActive (v : Int)
  /-- a call `ln.Close()` -/
  | close (ln : Listener)
  /-- an event handed to logger `logger` -/
  | log (logger : Nat) (ev : LogEvent)
  /-- a `go` statement launching the serving task; `ln` is the listener it serves -/
  | go (ln : Listener)
deriving DecidableEq, Repr

/-- Everything that happened so far, oldest first. -/
abbrev World := List Effect

/-- The primitives the code depends on. `netListen` is the package variable of that name,
`close` is `net.Listener.Close`; `none` is a nil error. -/
structure Env where
  netListen : World → String → String → Except GoError Listener
  close : World → Listener → Option GoError

/-- Config contains Server configuration parameters. -/
structure Config where
  BindAddr : String
  Port : Int
  Disabled : Bool
deriving DecidableEq, Repr

/-- Server represents an admin server type. The collaborators `rep`, `peppers`, `hk` and
`logger` are opaque handles. `ln = none` is the nil interface value. -/
structure Server where
  bindAddr : String
  port : Int
  ln : Option Listener
  active : Int
  rep : Nat
  peppers : Nat
  hk : Nat
  logger : Nat
deriving DecidableEq, Repr

/-- What a call of a method returning `error` yields: nil, an error, or a run-time panic. -/
inductive Ret where
  | ok
  | err (e : GoError)
  | panic
deriving DecidableEq, Repr

/-- Outcome of a method call: the instance, the world and the returned value. -/
structure Out where
  s : Server
  w : World
  ret : Ret
deriving DecidableEq, Repr

/-! ## The code -/

/-- Go `strconv.Itoa`: the decimal rendering of an integer. -/
def Itoa (n : Int) : String :=
  match n with
  | Int.ofNat m => Nat.repr m
  | Int.negSucc m => "-" ++ Nat.repr (m + 1)

/-- Method `func (s *Server) getAddress() string`. -/
def getAddress (s : Server) : String :=
  s.bindAddr ++ ":" ++ Itoa s.port

/-- Function `func New(cfg, rep, peppers, hk, logger) *Server`; `none` is the nil pointer.
The function performs no effect, so the world is handed back as it came. -/
def New (cfg : Config) (rep peppers hk logger : Nat) (w : World) : Option Server × World :=
  if cfg.Disabled then
    (none, w)
  else
    (some
      { bindAddr := cfg.BindAddr
        port := cfg.Port
        ln := none
        active := 0
        rep := rep
        peppers := peppers
        hk := hk
        logger := logger }, w)

/-- The event logged by `Start` once the listener is bound. -/
def startedEvent (addr : String) : LogEvent :=
  { level := Level.info, msg := "started admin server", key := "bind_addr", val := LogVal.str addr }

/-- The event logged by `Stop` once the listener is closed. -/
def closedEvent (addr : String) : LogEvent :=
  { level := Level.info, msg := "closed admin server", key := "bind_addr", val := LogVal.str addr }

/-- The event logged by the serving task for an unexpected serve error. -/
def serverErrorEvent (e : GoError) : LogEvent :=
  { level := Level.error, msg := "admin server error", key := "err", val := LogVal.err e }

/-- Method `func (s *Server) Start(_ context.Context) error`, up to and including the `go`
statement. -/
def Start (env : Env) (s : Server) (w : World) : Out :=
  let addr := getAddress s
  match env.netListen w "tcp" addr with
  | Except.error e =>
    { s := s, w := w ++ [Effect.listen "tcp" addr], ret := Ret.err e }
  | Except.ok ln =>
    let s1 := { s with ln := some ln }
    let s2 := { s1 with active := 1 }
    { s := s2
      w := w ++ [Effect.listen "tcp" addr, Effect.setActive 1,
                 Effect.log s2.logger (startedEvent addr), Effect.go ln]
      ret := Ret.ok }

/-- The body of the goroutine launched by `Start`, from the moment `grpcServer.Serve(s.ln)`
returns `serveErr`; `s` is the instance as it is when `atomic.LoadInt32(&s.active)` runs. -/
def serveTask (s : Server) (serveErr : Option GoError) (w : World) : World :=
  match serveErr with
  | none => w
  | some e =>
    if s.active = 1 then
      w ++ [Effect.log s.logger (serverErrorEvent e)]
    else
      w

/-- Method `func (s *Server) Stop(_ context.Context) error`. Calling `Close` on a nil listener
is a nil dereference, which panics after the store to `active`. -/
def Stop (env : Env) (s : Server) (w : World) : Out :=
  let s1 := { s with active := 0 }
  let w1 := w ++ [Effect.setActive 0]
  match s1.ln with
  | none => { s := s1, w := w1, ret := Ret.panic }
  | some ln =>
    match env.close w1 ln with
    | some e => { s := s1, w := w1 ++ [Effect.close ln], ret := Ret.err e }
    | none =>
      { s := s1
        w := w1 ++ [Effect.close ln, Effect.log s1.logger (closedEvent (getAddress s1))]
        ret := Ret.ok }

/-! ## Observations on a world -/

/-- The calls of the bind primitive, as pairs of network and address, oldest first. -/
def bindCalls : World → List (String × String)
  | [] => []
  | Effect.listen n a :: w => (n, a) :: bindCalls w
  | _ :: w => bindCalls w

/-- The listeners on which `Close` was called, oldest first. -/
def closeCalls : World → List Listener
  | [] => []
  | Effect.close ln :: w => ln :: closeCalls w
  | _ :: w => closeCalls w

/-- The events handed to a logger, with the logger, oldest first. -/
def logged : World → List (Nat × LogEvent)
  | [] => []
  | Effect.log l ev :: w => (l, ev) :: logged w
  | _ :: w => logged w

/-- The listeners for which a serving task was launched, oldest first. -/
def launched : World → List Listener
  | [] => []
  | Effect.go ln :: w => ln :: launched w
  | _ :: w => launched w

/-- The values written to the `active` field, oldest first. -/
def statusWrites : World → List Int
  | [] => []
  | Effect.setActive v :: w => v :: statusWrites w
  | _ :: w => statusWrites w

/-! ## Sequences of calls -/

/-- A call a host makes on an instance. -/
inductive Call where
  | start
  | stop
deriving DecidableEq, Repr

/-- One call on the instance. -/
def call (env : Env) (c : Call) (s : Server) (w : World) : Out :=
  match c with
  | Call.start => Start env s w
  | Call.stop => Stop env s w

/-- The calls still to be made, given the outcome so far; a panic ends the run. -/
def runFrom (env : Env) : List Call → Out → Out
  | [], o => o
  | c :: cs, o => if o.ret = Ret.panic then o else runFrom env cs (call env c o.s o.w)

/-- A sequence of calls on one instance, one after the other. The returned value is the
one of the last call made (`Ret.ok` if none was made). -/
def run (env : Env) (cs : List Call) (s : Server) (w : World) : Out :=
  runFrom env cs { s := s, w := w, ret := Ret.ok }

/-! ## Concrete environments and instances -/

/-- The configuration of the end-to-end scenario. -/
def loopbackCfg : Config :=
  { BindAddr := "127.0.0.1", Port := 0, Disabled := false }

/-- The instance `New` builds for `loopbackCfg`. -/
def loopback : Server :=
  { bindAddr := "127.0.0.1"
    port := 0
    ln := none
    active := 0
    rep := 1
    peppers := 2
    hk := 3
    logger := 4 }

/-- The listener an operating system hands out for port 0: it reports an ephemeral port. -/
def ephemeral (k : Nat) : Listener :=
  { id := k, addr := "127.0.0.1:" ++ Itoa (49152 + k) }

/-- An environment in which every bind succeeds with a new listener on an ephemeral port,
the first close of a listener succeeds and a later close of the same listener fails. -/
def osEnv : Env :=
  { netListen := fun w _ _ => Except.ok (ephemeral (bindCalls w).length)
    close := fun w ln =>
      if ln ∈ closeCalls w then some { text := "use of closed network connection" } else none }

/-- An environment of substitutes: every bind and every close succeeds. -/
def stubEnv : Env :=
  { netListen := fun w _ _ => Except.ok (ephemeral (bindCalls w).length)
    close := fun _ _ => none }

/-- An environment in which the address is already in use and a close fails. -/
def failEnv : Env :=
  { netListen := fun _ _ _ => Except.error { text := "address already in use" }
    close := fun _ _ => some { text := "close failed" } }

/-- An environment in which the bind succeeds and the close fails. -/
def closeFailEnv : Env :=
  { netListen := fun w _ _ => Except.ok (ephemeral (bindCalls w).length)
    close := fun _ _ => some { text := "close failed" } }

/-! ## Stop running against the serving task

`Stop` and the goroutine launched by `Start` run concurrently. Each is cut into its
atomic steps, in program order; a schedule picks which of the two moves next. The
accesses to `active` are the `sync/atomic` store of `Stop` and load of the goroutine, so
every execution is an interleaving of these steps.
-/

/-- Where `Stop` stands: before `atomic.StoreInt32(&s.active, 0)`, before `s.ln.Close()`,
before the "closed admin server" log call, or returned. -/
inductive StopPc where
  | store
  | close
  | log
  | done
deriving DecidableEq, Repr

/-- Where the goroutine stands: blocked in `grpcServer.Serve(s.ln)`, before
`atomic.LoadInt32(&s.active)`, before the comparison with 1 and the log call, or ended. -/
inductive ServePc where
  | serving
  | load
  | test
  | done
deriving DecidableEq, Repr

/-- The two concurrent activities. -/
inductive Thread where
  | stop
  | serve
deriving DecidableEq, Repr

/-- The state shared by `Stop` and the serving task, with the locals of both. -/
structure Conc where
  /-- the instance both work on -/
  s : Server
  /-- the effects so far -/
  w : World
  stopPc : StopPc
  /-- what `Stop` returned, once it has -/
  stopRet : Option Ret
  servePc : ServePc
  /-- the error `Serve` returned, once it has -/
  serveErr : Option GoError
  /-- the value the goroutine loaded from `active`, once it has -/
  loaded : Option Int
  /-- whether `Stop` has called `Close` on the listener -/
  closeIssued : Bool
deriving DecidableEq, Repr

/-- The state in which `Stop` is called on `s` while the serving task is blocked. -/
def Conc.init (s : Server) (w : World) : Conc :=
  { s := s, w := w, stopPc := StopPc.store, stopRet := none, servePc := ServePc.serving,
    serveErr := none, loaded := none, closeIssued := false }

/-- One step of `Stop`; `none` when it has returned. -/
def stopStep (env : Env) (c : Conc) : Option Conc :=
  match c.stopPc with
  | StopPc.store =>
    some { c with s := { c.s with active := 0 }, w := c.w ++ [Effect.setActive 0],
                  stopPc := StopPc.close }
  | StopPc.close =>
    match c.s.ln with
    | none => some { c with stopPc := StopPc.done, stopRet := some Ret.panic }
    | some ln =>
      match env.close c.w ln with
      | some e =>
        some { c with w := c.w ++ [Effect.close ln], closeIssued := true,
                      stopPc := StopPc.done, stopRet := some (Ret.err e) }
      | none =>
        some { c with w := c.w ++ [Effect.close ln], closeIssued := true,
                      stopPc := StopPc.log }
  | StopPc.log =>
    some { c with w := c.w ++ [Effect.log c.s.logger (closedEvent (getAddress c.s))],
                  stopPc := StopPc.done, stopRet := some Ret.ok }
  | StopPc.done => none

/-- One step of the serving task; `none` when it is blocked or has ended. The serve loop
fails only through the close of the listener by `Stop`: `Serve` returns, with the error
`serveErr` picks, only once `Stop` has called `Close`. -/
def serveStep (serveErr : World → GoError) (c : Conc) : Option Conc :=
  match c.servePc with
  | ServePc.serving =>
    if c.closeIssued then
      some { c with serveErr := some (serveErr c.w), servePc := ServePc.load }
    else
      none
  | ServePc.load =>
    some { c with loaded := some c.s.active, servePc := ServePc.test }
  | ServePc.test =>
    match c.serveErr with
    | none => some { c with servePc := ServePc.done }
    | some e =>
      if c.loaded = some 1 then
        some { c with w := c.w ++ [Effect.log c.s.logger (serverErrorEvent e)],
                      servePc := ServePc.done }
      else
        some { c with servePc := ServePc.done }
  | ServePc.done => none

/-- One step of the chosen thread. -/
def step (env : Env) (serveErr : World → GoError) (t : Thread) (c : Conc) : Option Conc :=
  match t with
  | Thread.stop => stopStep env c
  | Thread.serve => serveStep serveErr c

/-- The execution a schedule describes; `none` when the schedule asks a thread to move
that cannot. -/
def exec (env : Env) (serveErr : World → GoError) : List Thread → Conc → Option Conc
  | [], c => some c
  | t :: ts, c =>
    match step env serveErr t c with
    | none => none
    | some c1 => exec env serveErr ts c1

/-- Whether an effect is an error-level log event. -/
def isErrorLog : Effect → Bool
  | Effect.log _ ev => ev.level == Level.error
  | _ => false

/-- The error the serve loop reports when its listener is closed under it. -/
def closedConnErr : World → GoError :=
  fun _ => { text := "use of closed network connection" }

/-- The schedule and the final state of one complete interleaving on the started loopback
instance: the serving task wakes up between the close and the log of `Stop`. -/
def raceSchedule : List Thread :=
  [Thread.stop, Thread.stop, Thread.serve, Thread.serve, Thread.stop, Thread.serve]

/-- The state `raceSchedule` ends in. -/
def raceFinal : Conc :=
  { s := { loopback with ln := some (ephemeral 0), active := 0 }
    w := (Start osEnv loopback []).w ++
      [Effect.setActive 0, Effect.close (ephemeral 0),
       Effect.log 4 (closedEvent "127.0.0.1:0")]
    stopPc := StopPc.done
    stopRet := some Ret.ok
    servePc := ServePc.done
    serveErr := some { text := "use of closed network connection" }
    loaded := some 0
    closeIssued := true }

/-- What holds in every state reached from `Conc.init s w` when `w` has `n` effects: once
`Stop` is past its store the status is 0; `Close` is called only past the store; `Serve`
returns only after the `Close` call; the value loaded, if any, is 0; and no effect added
to the first `n` is an error-level event. -/
def Inv (n : Nat) (c : Conc) : Prop :=
  (c.stopPc ≠ StopPc.store → c.s.active = 0) ∧
  (c.closeIssued = true → c.stopPc ≠ StopPc.store) ∧
  (c.servePc ≠ ServePc.serving → c.closeIssued = true) ∧
  (c.servePc = ServePc.test ∨ c.servePc = ServePc.done → c.loaded = some 0) ∧
  (c.servePc = ServePc.serving ∨ c.servePc = ServePc.load → c.loaded = none) ∧
  (∀ x ∈ c.w.drop n, isErrorLog x = false) ∧
  n ≤ c.w.length

/-! ## Lemmas on the observations -/

theorem bindCalls_append (u v : World) : bindCalls (u ++ v) = bindCalls u ++ bindCalls v := by
  induction u with
  | nil => rfl
  | cons e u ih => cases e <;> simp [bindCalls, ih]

theorem closeCalls_append (u v : World) :
    closeCalls (u ++ v) = closeCalls u ++ closeCalls v := by
  induction u with
  | nil => rfl
  | cons e u ih => cases e <;> simp [closeCalls, ih]

theorem logged_append (u v : World) : logged (u ++ v) = logged u ++ logged v := by
  induction u with
  | nil => rfl
  | cons e u ih => cases e <;> simp [logged, ih]

theorem launched_append (u v : World) : launched (u ++ v) = launched u ++ launched v := by
  induction u with
  | nil => rfl
  | cons e u ih => cases e <;> simp [launched, ih]

theorem statusWrites_append (u v : World) :
    statusWrites (u ++ v) = statusWrites u ++ statusWrites v := by
  induction u with
  | nil => rfl
  | cons e u ih => cases e <;> simp [statusWrites, ih]

/-- What `Start` does when the bind fails. -/
theorem Start_of_error (env : Env) (s : Server) (w : World) (e : GoError)
    (h : env.netListen w "tcp" (getAddress s) = Except.error e) :
    Start env s w
      = { s := s, w := w ++ [Effect.listen "tcp" (getAddress s)], ret := Ret.err e } := by
  simp [Start, h]

/-- What `Start` does when the bind succeeds. -/
theorem Start_of_ok (env : Env) (s : Server) (w : World) (ln : Listener)
    (h : env.netListen w "tcp" (getAddress s) = Except.ok ln) :
    Start env s w
      = { s := { s with ln := some ln, active := 1 }
          w := w ++ [Effect.listen "tcp" (getAddress s), Effect.setActive 1,
                     Effect.log s.logger (startedEvent (getAddress s)), Effect.go ln]
          ret := Ret.ok } := by
  simp [Start, h]

/-- What `Stop` does on an instance holding a listener whose close fails. -/
theorem Stop_of_error (env : Env) (s : Server) (w : World) (ln : Listener) (e : GoError)
    (hln : s.ln = some ln) (h : env.close (w ++ [Effect.setActive 0]) ln = some e) :
    Stop env s w
      = { s := { s with active := 0 }
          w := w ++ [Effect.setActive 0, Effect.close ln]
          ret := Ret.err e } := by
  simp [Stop, hln, h]

/-- What `Stop` does on an instance holding a listener whose close succeeds. -/
theorem Stop_of_ok (env : Env) (s : Server) (w : World) (ln : Listener)
    (hln : s.ln = some ln) (h : env.close (w ++ [Effect.setActive 0]) ln = none) :
    Stop env s w
      = { s := { s with active := 0 }
          w := w ++ [Effect.setActive 0, Effect.close ln,
                     Effect.log s.logger (closedEvent (getAddress s))]
          ret := Ret.ok } := by
  simp [Stop, hln, h, getAddress]

/-- What `Stop` does on an instance without a listener. -/
theorem Stop_of_nil (env : Env) (s : Server) (w : World) (hln : s.ln = none) :
    Stop env s w
      = { s := { s with active := 0 }, w := w ++ [Effect.setActive 0], ret := Ret.panic } := by
  simp [Stop, hln]

/-- A successful `Start` leaves a listener in the instance: the one the bind returned. -/
theorem Start_ok_listener (env : Env) (s : Server) (w : World)
    (h : (Start env s w).ret = Ret.ok) :
    ∃ ln, env.netListen w "tcp" (getAddress s) = Except.ok ln ∧
      (Start env s w).s = { s with ln := some ln, active := 1 } := by
  cases hb : env.netListen w "tcp" (getAddress s) with
  | error e => rw [Start_of_error env s w e hb] at h; simp at h
  | ok ln => exact ⟨ln, rfl, by rw [Start_of_ok env s w ln hb]⟩

/-! ## Construction -/

/-- C1: `New` returns no instance when `cfg.Disabled` is true; otherwise it returns an
instance whose bind address and port are those of the configuration, without a listener
and with a status that is not Running. In both cases `New` performs no effect at all, so
the bind primitive is not called. -/
theorem New_spec (cfg : Config) (rep peppers hk logger : Nat) (w : World) :
    (New cfg rep peppers hk logger w).2 = w ∧
    bindCalls (New cfg rep peppers hk logger w).2 = bindCalls w ∧
    (cfg.Disabled = true → (New cfg rep peppers hk logger w).1 = none) ∧
    (cfg.Disabled = false →
      ∃ s, (New cfg rep peppers hk logger w).1 = some s ∧
        s.bindAddr = cfg.BindAddr ∧ s.port = cfg.Port ∧ s.ln = none ∧ s.active ≠ 1 ∧
        s.rep = rep ∧ s.peppers = peppers ∧ s.hk = hk ∧ s.logger = logger) := by
  cases hd : cfg.Disabled <;> simp [New, hd]

/-- C1 at the disabled and at the enabled loopback configuration. -/
theorem New_spec_witness :
    (New { loopbackCfg with Disabled := true } 1 2 3 4 []).1 = none ∧
    (∃ s, (New loopbackCfg 1 2 3 4 []).1 = some s ∧
        s.bindAddr = "127.0.0.1" ∧ s.port = 0 ∧ s.ln = none ∧ s.active ≠ 1 ∧
        s.rep = 1 ∧ s.peppers = 2 ∧ s.hk = 3 ∧ s.logger = 4) :=
  ⟨(New_spec { loopbackCfg with Disabled := true } 1 2 3 4 []).2.2.1 rfl,
   (New_spec loopbackCfg 1 2 3 4 []).2.2.2 rfl⟩

/-! ## Start -/

/-- C2: if the bind primitive fails with `e`, `Start` returns exactly `e` and changes
nothing: the instance is as it was (status and listener included, so a status that was
not Running stays so and an absent listener stays absent), no event is logged, no serving
task is launched; the only effect is the bind call itself. -/
theorem Start_bind_failure (env : Env) (s : Server) (w : World) (e : GoError)
    (h : env.netListen w "tcp" (getAddress s) = Except.error e) :
    (Start env s w).ret = Ret.err e ∧
    (Start env s w).s = s ∧
    (Start env s w).s.active = s.active ∧
    (Start env s w).s.ln = s.ln ∧
    (Start env s w).w = w ++ [Effect.listen "tcp" (getAddress s)] ∧
    logged (Start env s w).w = logged w ∧
    launched (Start env s w).w = launched w ∧
    statusWrites (Start env s w).w = statusWrites w ∧
    closeCalls (Start env s w).w = closeCalls w := by
  rw [Start_of_error env s w e h]
  simp [logged_append, launched_append, statusWrites_append, closeCalls_append,
    logged, launched, statusWrites, closeCalls]

/-- C2 on the loopback instance when the address is already in use. -/
theorem Start_bind_failure_witness :
    (Start failEnv loopback []).ret = Ret.err { text := "address already in use" } ∧
    (Start failEnv loopback []).s = loopback ∧
    (Start failEnv loopback []).s.active = 0 ∧
    (Start failEnv loopback []).s.ln = none ∧
    (Start failEnv loopback []).w = [Effect.listen "tcp" "127.0.0.1:0"] ∧
    logged (Start failEnv loopback []).w = [] ∧
    launched (Start failEnv loopback []).w = [] ∧
    statusWrites (Start failEnv loopback []).w = [] ∧
    closeCalls (Start failEnv loopback []).w = [] :=
  Start_bind_failure failEnv loopback [] { text := "address already in use" } rfl

/-- C3: `Start` calls the bind primitive exactly once, with network "tcp" and the address
`bindAddr ++ ":" ++ Itoa port`. When that call succeeds with `ln`, `Start` returns
success, the instance holds `ln`, its status is Running, exactly one event, the
informational "started admin server" with that address, is logged and exactly one serving
task is launched, on `ln`. This holds for every instance, a fresh one in particular. -/
theorem Start_success (env : Env) (s : Server) (w : World) :
    bindCalls (Start env s w).w
      = bindCalls w ++ [("tcp", s.bindAddr ++ ":" ++ Itoa s.port)] ∧
    (∀ ln, env.netListen w "tcp" (s.bindAddr ++ ":" ++ Itoa s.port) = Except.ok ln →
      (Start env s w).ret = Ret.ok ∧
      (Start env s w).s.ln = some ln ∧
      (Start env s w).s.active = 1 ∧
      (Start env s w).s.bindAddr = s.bindAddr ∧
      (Start env s w).s.port = s.port ∧
      logged (Start env s w).w
        = logged w ++ [(s.logger, { level := Level.info, msg := "started admin server",
                                    key := "bind_addr",
                                    val := LogVal.str (s.bindAddr ++ ":" ++ Itoa s.port) })] ∧
      launched (Start env s w).w = launched w ++ [ln]) := by
  constructor
  · cases hb : env.netListen w "tcp" (getAddress s) with
    | error e =>
      rw [Start_of_error env s w e hb]
      simp [bindCalls_append, bindCalls, getAddress]
    | ok ln =>
      rw [Start_of_ok env s w ln hb]
      simp [bindCalls_append, bindCalls, getAddress]
  · intro ln hb
    rw [Start_of_ok env s w ln hb]
    simp [logged_append, launched_append, logged, launched, startedEvent, getAddress]

/-- C3 on the instance that `New` builds for the loopback configuration. -/
theorem Start_success_witness :
    bindCalls (Start osEnv loopback []).w = [("tcp", "127.0.0.1:0")] ∧
    (Start osEnv loopback []).ret = Ret.ok ∧
    (Start osEnv loopback []).s.ln = some (ephemeral 0) ∧
    (Start osEnv loopback []).s.active = 1 ∧
    logged (Start osEnv loopback []).w
      = [(4, { level := Level.info, msg := "started admin server", key := "bind_addr",
               val := LogVal.str "127.0.0.1:0" })] ∧
    launched (Start osEnv loopback []).w = [ephemeral 0] :=
  ⟨(Start_success osEnv loopback []).1,
   ((Start_success osEnv loopback []).2 (ephemeral 0) rfl).1,
   ((Start_success osEnv loopback []).2 (ephemeral 0) rfl).2.1,
   ((Start_success osEnv loopback []).2 (ephemeral 0) rfl).2.2.1,
   ((Start_success osEnv loopback []).2 (ephemeral 0) rfl).2.2.2.2.2.1,
   ((Start_success osEnv loopback []).2 (ephemeral 0) rfl).2.2.2.2.2.2⟩

/-! ## Stop -/

/-- C4: on an instance on which `Start` has succeeded, `Stop` writes the status Stopped
and only then closes the listener that `Start` stored (the close primitive is consulted
in a world that already contains the write), and returns what the close returned. If the
close fails with `e`, `Stop` returns `e`, the status is Stopped all the same and nothing
is logged. If the close succeeds, `Stop` returns success and logs exactly one event, the
informational "closed admin server" with `bindAddr:port`. -/
theorem Stop_after_Start (env : Env) (s0 : Server) (w0 w : World)
    (hstart : (Start env s0 w0).ret = Ret.ok) :
    ∃ ln, (Start env s0 w0).s.ln = some ln ∧
      (Stop env (Start env s0 w0).s w).s.active = 0 ∧
      (Stop env (Start env s0 w0).s w).w.take (w.length + 2)
        = w ++ [Effect.setActive 0, Effect.close ln] ∧
      (∀ e, env.close (w ++ [Effect.setActive 0]) ln = some e →
        (Stop env (Start env s0 w0).s w).ret = Ret.err e ∧
        (Stop env (Start env s0 w0).s w).s.active = 0 ∧
        (Stop env (Start env s0 w0).s w).w = w ++ [Effect.setActive 0, Effect.close ln] ∧
        logged (Stop env (Start env s0 w0).s w).w = logged w) ∧
      (env.close (w ++ [Effect.setActive 0]) ln = none →
        (Stop env (Start env s0 w0).s w).ret = Ret.ok ∧
        (Stop env (Start env s0 w0).s w).w
          = w ++ [Effect.setActive 0, Effect.close ln,
                  Effect.log s0.logger
                    { level := Level.info, msg := "closed admin server", key := "bind_addr",
                      val := LogVal.str (s0.bindAddr ++ ":" ++ Itoa s0.port) }] ∧
        logged (Stop env (Start env s0 w0).s w).w
          = logged w ++ [(s0.logger,
              { level := Level.info, msg := "closed admin server", key := "bind_addr",
                val := LogVal.str (s0.bindAddr ++ ":" ++ Itoa s0.port) })]) := by
  obtain ⟨ln, _, hs⟩ := Start_ok_listener env s0 w0 hstart
  rw [hs]
  refine ⟨ln, rfl, ?_, ?_, ?_, ?_⟩
  · simp only [Stop]
    cases env.close (w ++ [Effect.setActive 0]) ln <;> rfl
  · cases hc : env.close (w ++ [Effect.setActive 0]) ln with
    | none =>
      rw [Stop_of_ok env _ w ln rfl hc]
      simp [List.take_append_eq_append_take]
    | some e =>
      rw [Stop_of_error env _ w ln e rfl hc]
      simp
  · intro e hc
    rw [Stop_of_error env _ w ln e rfl hc]
    simp [logged_append, logged]
  · intro hc
    rw [Stop_of_ok env _ w ln rfl hc]
    simp [logged_append, logged, closedEvent, getAddress]

/-- C4 on the loopback instance, with a close that fails. -/
theorem Stop_after_Start_witness :
    ∃ ln, (Start closeFailEnv loopback []).s.ln = some ln ∧
      (Stop closeFailEnv (Start closeFailEnv loopback []).s []).ret
        = Ret.err { text := "close failed" } ∧
      (Stop closeFailEnv (Start closeFailEnv loopback []).s []).s.active = 0 ∧
      (Stop closeFailEnv (Start closeFailEnv loopback []).s []).w
        = [Effect.setActive 0, Effect.close ln] ∧
      logged (Stop closeFailEnv (Start closeFailEnv loopback []).s []).w = [] := by
  obtain ⟨ln, h1, _, _, h4, _⟩ := Stop_after_Start closeFailEnv loopback [] [] rfl
  exact ⟨ln, h1, h4 { text := "close failed" } rfl⟩

/-! ## The serving task -/

/-- C5: when the serve loop exits with the error `e`, the serving task logs the error
event "admin server error" carrying `e` exactly when the status it reads is Running
(`active = 1`); when the status is Stopped (`active = 0`), and for any other value,
nothing is logged; when the serve loop exits without error nothing is logged. The task
has no other effect. -/
theorem serveTask_spec (s : Server) (e : GoError) (w : World) :
    (s.active = 1 →
      serveTask s (some e) w
        = w ++ [Effect.log s.logger
                  { level := Level.error, msg := "admin server error", key := "err",
                    val := LogVal.err e }]) ∧
    (s.active = 0 → serveTask s (some e) w = w) ∧
    (logged (serveTask s (some e) w) ≠ logged w ↔ s.active = 1) ∧
    serveTask s none w = w := by
  refine ⟨?_, ?_, ?_, rfl⟩
  · intro h
    simp [serveTask, h, serverErrorEvent]
  · intro h
    simp [serveTask, h]
  · by_cases h : s.active = 1
    · simp [serveTask, h, logged_append, logged]
    · simp [serveTask, h]

/-- C5 on a running and on a stopped loopback instance. -/
theorem serveTask_spec_witness :
    serveTask { loopback with active := 1 } (some { text := "transport fault" }) []
      = [Effect.log 4 { level := Level.error, msg := "admin server error", key := "err",
                        val := LogVal.err { text := "transport fault" } }] ∧
    serveTask loopback (some { text := "transport fault" }) [] = [] :=
  ⟨(serveTask_spec { loopback with active := 1 } { text := "transport fault" } []).1 rfl,
   (serveTask_spec loopback { text := "transport fault" } []).2.1 rfl⟩

/-! ## Start followed by Stop -/

/-- C6: when the bind succeeds with `ln` and the close succeeds, `Start` followed at once
by `Stop` makes exactly one close call, on `ln`; both calls return success; the events
logged are exactly "started admin server" and then "closed admin server", both
informational and both with the address `bindAddr:port`; no error event is logged. -/
theorem Start_then_Stop (env : Env) (s : Server) (w : World) (ln : Listener)
    (hb : env.netListen w "tcp" (getAddress s) = Except.ok ln)
    (hc : env.close ((Start env s w).w ++ [Effect.setActive 0]) ln = none) :
    (Start env s w).ret = Ret.ok ∧
    (run env [Call.start, Call.stop] s w).ret = Ret.ok ∧
    (run env [Call.start, Call.stop] s w).s.active = 0 ∧
    bindCalls (run env [Call.start, Call.stop] s w).w
      = bindCalls w ++ [("tcp", getAddress s)] ∧
    closeCalls (run env [Call.start, Call.stop] s w).w = closeCalls w ++ [ln] ∧
    logged (run env [Call.start, Call.stop] s w).w
      = logged w ++
        [(s.logger, { level := Level.info, msg := "started admin server",
                      key := "bind_addr", val := LogVal.str (getAddress s) }),
         (s.logger, { level := Level.info, msg := "closed admin server",
                      key := "bind_addr", val := LogVal.str (getAddress s) })] ∧
    (run env [Call.start, Call.stop] s w).w
      = w ++ [Effect.listen "tcp" (getAddress s), Effect.setActive 1,
              Effect.log s.logger (startedEvent (getAddress s)), Effect.go ln,
              Effect.setActive 0, Effect.close ln,
              Effect.log s.logger (closedEvent (getAddress s))] := by
  have h1 := Start_of_ok env s w ln hb
  have hrun : run env [Call.start, Call.stop] s w
      = Stop env (Start env s w).s (Start env s w).w := by
    simp [run, runFrom, call, h1]
  have h2 := Stop_of_ok env (Start env s w).s (Start env s w).w ln (by rw [h1]) hc
  rw [hrun, h2, h1]
  simp [bindCalls_append, closeCalls_append, logged_append, bindCalls, closeCalls, logged,
    startedEvent, closedEvent, getAddress]

/-- C6 on the loopback instance in an environment where bind and close succeed. -/
theorem Start_then_Stop_witness :
    (run osEnv [Call.start, Call.stop] loopback []).ret = Ret.ok ∧
    closeCalls (run osEnv [Call.start, Call.stop] loopback []).w = [ephemeral 0] ∧
    logged (run osEnv [Call.start, Call.stop] loopback []).w
      = [(4, { level := Level.info, msg := "started admin server",
               key := "bind_addr", val := LogVal.str "127.0.0.1:0" }),
         (4, { level := Level.info, msg := "closed admin server",
               key := "bind_addr", val := LogVal.str "127.0.0.1:0" })] :=
  ⟨(Start_then_Stop osEnv loopback [] (ephemeral 0) rfl (by decide)).2.1,
   (Start_then_Stop osEnv loopback [] (ephemeral 0) rfl (by decide)).2.2.2.2.1,
   (Start_then_Stop osEnv loopback [] (ephemeral 0) rfl (by decide)).2.2.2.2.2.1⟩

/-! ## Repeated calls -/

/-- Every `Stop` leaves the status Stopped and makes no bind call, whatever the instance. -/
theorem Stop_status (env : Env) (s : Server) (w : World) :
    (Stop env s w).s.active = 0 ∧ bindCalls (Stop env s w).w = bindCalls w ∧
    launched (Stop env s w).w = launched w := by
  cases hln : s.ln with
  | none =>
    rw [Stop_of_nil env s w hln]
    simp [bindCalls_append, launched_append, bindCalls, launched]
  | some ln =>
    cases hc : env.close (w ++ [Effect.setActive 0]) ln with
    | none =>
      rw [Stop_of_ok env s w ln hln hc]
      simp [bindCalls_append, launched_append, bindCalls, launched]
    | some e =>
      rw [Stop_of_error env s w ln e hln hc]
      simp [bindCalls_append, launched_append, bindCalls, launched]

/-- Every `Start` makes exactly one bind call and leaves a status that is 0 or 1 if it was. -/
theorem Start_status (env : Env) (s : Server) (w : World) (h : s.active = 0 ∨ s.active = 1) :
    ((Start env s w).s.active = 0 ∨ (Start env s w).s.active = 1) ∧
    (bindCalls (Start env s w).w).length = (bindCalls w).length + 1 := by
  cases hb : env.netListen w "tcp" (getAddress s) with
  | error e =>
    rw [Start_of_error env s w e hb]
    simp [bindCalls_append, bindCalls, h]
  | ok ln =>
    rw [Start_of_ok env s w ln hb]
    simp [bindCalls_append, bindCalls]

/-- No `Start` panics. -/
theorem Start_ret_ne_panic (env : Env) (s : Server) (w : World) :
    (Start env s w).ret ≠ Ret.panic := by
  cases hb : env.netListen w "tcp" (getAddress s) with
  | error e => rw [Start_of_error env s w e hb]; simp
  | ok ln => rw [Start_of_ok env s w ln hb]; simp

/-- A run that starts from a panic makes no call. -/
theorem runFrom_panic (env : Env) (cs : List Call) (o : Out) (h : o.ret = Ret.panic) :
    runFrom env cs o = o := by
  cases cs with
  | nil => rfl
  | cons c cs => simp [runFrom, h]

/-- The status stays within 0 and 1 along a run, and the run makes at most as many bind
calls as it has `Start` calls, exactly as many when it does not end in a panic. -/
theorem runFrom_status (env : Env) (cs : List Call) :
    ∀ o : Out, (o.s.active = 0 ∨ o.s.active = 1) →
      ((runFrom env cs o).s.active = 0 ∨ (runFrom env cs o).s.active = 1) ∧
      (bindCalls (runFrom env cs o).w).length ≤ (bindCalls o.w).length + cs.count Call.start ∧
      ((runFrom env cs o).ret ≠ Ret.panic →
        (bindCalls (runFrom env cs o).w).length
          = (bindCalls o.w).length + cs.count Call.start) := by
  induction cs with
  | nil => intro o h; simp [runFrom, h]
  | cons c cs ih =>
    intro o h
    by_cases hp : o.ret = Ret.panic
    · rw [runFrom_panic env (c :: cs) o hp]
      exact ⟨h, by omega, fun hne => absurd hp hne⟩
    · have hstep : runFrom env (c :: cs) o = runFrom env cs (call env c o.s o.w) := by
        simp [runFrom, hp]
      rw [hstep]
      cases c with
      | start =>
        have hs := Start_status env o.s o.w h
        have := ih (call env Call.start o.s o.w) hs.1
        simp only [call] at this ⊢
        rw [hs.2] at this
        simp only [List.count_cons_self]
        exact ⟨this.1, by omega, fun hne => by have := this.2.2 hne; omega⟩
      | stop =>
        have hs := Stop_status env o.s o.w
        have := ih (call env Call.stop o.s o.w) (Or.inl hs.1)
        simp only [call] at this ⊢
        rw [hs.2.1] at this
        have hc : List.count Call.start (Call.stop :: cs) = List.count Call.start cs := by
          simp
        rw [hc]
        exact this

/-- C7, as the code has it: `Start` is not guarded by the status. Along every sequence of
`Start` and `Stop` calls on an instance whose status is 0 or 1 the status stays 0
(NotStarted or Stopped) or 1 (Running); `Stop` always leaves it Stopped and never calls
bind; every `Start`, whatever the status and the stored listener, calls bind once, and
when that bind succeeds it sets the status to Running and stores the new listener. So a
run makes at most as many bind calls as it has `Start` calls (exactly as many when it
does not panic), and at most one when `Start` occurs at most once. -/
theorem Start_Stop_sequences (env : Env) (cs : List Call) (s : Server) (w : World)
    (h : s.active = 0 ∨ s.active = 1) :
    ((run env cs s w).s.active = 0 ∨ (run env cs s w).s.active = 1) ∧
    (bindCalls (run env cs s w).w).length ≤ (bindCalls w).length + cs.count Call.start ∧
    ((run env cs s w).ret ≠ Ret.panic →
      (bindCalls (run env cs s w).w).length = (bindCalls w).length + cs.count Call.start) ∧
    (cs.count Call.start ≤ 1 →
      (bindCalls (run env cs s w).w).length ≤ (bindCalls w).length + 1) ∧
    (∀ (s1 : Server) (w1 : World),
      (Stop env s1 w1).s.active = 0 ∧ bindCalls (Stop env s1 w1).w = bindCalls w1) ∧
    (∀ (s1 : Server) (w1 : World) (ln : Listener),
      env.netListen w1 "tcp" (getAddress s1) = Except.ok ln →
      (Start env s1 w1).ret = Ret.ok ∧ (Start env s1 w1).s.active = 1 ∧
      (Start env s1 w1).s.ln = some ln ∧
      launched (Start env s1 w1).w = launched w1 ++ [ln]) := by
  have hr := runFrom_status env cs { s := s, w := w, ret := Ret.ok } h
  refine ⟨hr.1, hr.2.1, hr.2.2, ?_, ?_, ?_⟩
  · intro hc
    have h2 : (bindCalls (run env cs s w).w).length
        ≤ (bindCalls w).length + cs.count Call.start := hr.2.1
    omega
  · intro s1 w1
    exact ⟨(Stop_status env s1 w1).1, (Stop_status env s1 w1).2.1⟩
  · intro s1 w1 ln hb
    rw [Start_of_ok env s1 w1 ln hb]
    simp [launched_append, launched]

/-- C7 as amended, on the loopback instance: restarted after a stop, it is Running again
on a second listener. -/
theorem Start_Stop_sequences_witness :
    (bindCalls (run osEnv [Call.start, Call.stop, Call.start] loopback []).w).length = 0 + 2 ∧
    (Start osEnv (run osEnv [Call.start, Call.stop] loopback []).s
        (run osEnv [Call.start, Call.stop] loopback []).w).s.active = 1 :=
  ⟨(Start_Stop_sequences osEnv [Call.start, Call.stop, Call.start] loopback []
      (Or.inl rfl)).2.2.1 (by decide),
   ((Start_Stop_sequences osEnv [] loopback [] (Or.inl rfl)).2.2.2.2.2
      (run osEnv [Call.start, Call.stop] loopback []).s
      (run osEnv [Call.start, Call.stop] loopback []).w (ephemeral 1) rfl).2.1⟩

/-- C7 fails as stated: on the loopback instance, `Start`, `Stop`, `Start` leaves the
status Running after it was Stopped, with two successful binds, two listeners and two
serving tasks; and a `Start` on a Running instance binds a second socket and replaces the
stored listener. -/
theorem Start_not_guarded :
    (run osEnv [Call.start, Call.stop] loopback []).s.active = 0 ∧
    (run osEnv [Call.start, Call.stop, Call.start] loopback []).ret = Ret.ok ∧
    (run osEnv [Call.start, Call.stop, Call.start] loopback []).s.active = 1 ∧
    statusWrites (run osEnv [Call.start, Call.stop, Call.start] loopback []).w = [1, 0, 1] ∧
    bindCalls (run osEnv [Call.start, Call.stop, Call.start] loopback []).w
      = [("tcp", "127.0.0.1:0"), ("tcp", "127.0.0.1:0")] ∧
    launched (run osEnv [Call.start, Call.stop, Call.start] loopback []).w
      = [ephemeral 0, ephemeral 1] ∧
    (run osEnv [Call.start] loopback []).s.active = 1 ∧
    (run osEnv [Call.start] loopback []).s.ln = some (ephemeral 0) ∧
    (run osEnv [Call.start, Call.start] loopback []).ret = Ret.ok ∧
    (run osEnv [Call.start, Call.start] loopback []).s.ln = some (ephemeral 1) ∧
    launched (run osEnv [Call.start, Call.start] loopback []).w
      = [ephemeral 0, ephemeral 1] := by
  decide

/-! ## The end-to-end scenario -/

/-- C8, as the code has it: in the end-to-end scenario (bind address "127.0.0.1", port 0,
not disabled, bind and close succeed) the "started admin server" event carries the
configured address string "127.0.0.1:0", whatever address the bound listener reports, and
the "closed admin server" event carries that same string. -/
theorem end_to_end_events (env : Env) (rep peppers hk logger : Nat) (w : World) (s : Server)
    (ln : Listener)
    (hnew : (New { BindAddr := "127.0.0.1", Port := 0, Disabled := false }
              rep peppers hk logger w).1 = some s)
    (hb : env.netListen w "tcp" (getAddress s) = Except.ok ln)
    (hc : env.close ((Start env s w).w ++ [Effect.setActive 0]) ln = none) :
    (Start env s w).ret = Ret.ok ∧
    (Start env s w).s.ln = some ln ∧
    logged (Start env s w).w
      = logged w ++ [(logger, { level := Level.info, msg := "started admin server",
                                key := "bind_addr", val := LogVal.str "127.0.0.1:0" })] ∧
    (run env [Call.start, Call.stop] s w).ret = Ret.ok ∧
    logged (run env [Call.start, Call.stop] s w).w
      = logged w ++
        [(logger, { level := Level.info, msg := "started admin server",
                    key := "bind_addr", val := LogVal.str "127.0.0.1:0" }),
         (logger, { level := Level.info, msg := "closed admin server",
                    key := "bind_addr", val := LogVal.str "127.0.0.1:0" })] := by
  have hs : s = { bindAddr := "127.0.0.1", port := 0, ln := none, active := 0,
                  rep := rep, peppers := peppers, hk := hk, logger := logger } := by
    simp [New] at hnew
    exact hnew.symm
  have haddr : s.bindAddr ++ ":" ++ Itoa s.port = "127.0.0.1:0" := by
    rw [hs]
    show "127.0.0.1" ++ ":" ++ Itoa 0 = "127.0.0.1:0"
    decide
  have h1 := Start_of_ok env s w ln hb
  have hrun : run env [Call.start, Call.stop] s w
      = Stop env (Start env s w).s (Start env s w).w := by
    simp [run, runFrom, call, h1]
  have h2 := Stop_of_ok env (Start env s w).s (Start env s w).w ln (by rw [h1]) hc
  rw [hrun, h2, h1]
  have hl : s.logger = logger := by rw [hs]
  simp [logged_append, logged, startedEvent, closedEvent, getAddress, haddr, hl]

/-- C8 as amended, in an environment whose listener reports an ephemeral port. -/
theorem end_to_end_events_witness :
    logged (run osEnv [Call.start, Call.stop] loopback []).w
      = [(4, { level := Level.info, msg := "started admin server",
               key := "bind_addr", val := LogVal.str "127.0.0.1:0" }),
         (4, { level := Level.info, msg := "closed admin server",
               key := "bind_addr", val := LogVal.str "127.0.0.1:0" })] :=
  (end_to_end_events osEnv 1 2 3 4 [] loopback (ephemeral 0) rfl rfl (by decide)).2.2.2.2

/-- C8 fails as stated: in the end-to-end scenario the listener that was bound reports
"127.0.0.1:49152", the ephemeral port chosen by the bind, while the "started admin server"
event carries "127.0.0.1:0". -/
theorem started_event_not_resolved :
    (New loopbackCfg 1 2 3 4 []).1 = some loopback ∧
    (Start osEnv loopback []).ret = Ret.ok ∧
    (Start osEnv loopback []).s.ln = some (ephemeral 0) ∧
    (ephemeral 0).addr = "127.0.0.1:49152" ∧
    logged (Start osEnv loopback []).w
      = [(4, { level := Level.info, msg := "started admin server",
               key := "bind_addr", val := LogVal.str "127.0.0.1:0" })] ∧
    logged (Start osEnv loopback []).w
      ≠ [(4, { level := Level.info, msg := "started admin server",
               key := "bind_addr", val := LogVal.str (ephemeral 0).addr })] := by
  decide

/-! ## A second Stop -/

/-- C10, as the code has it: on an instance that was started and then stopped, a second
`Stop` leaves the instance as it is (status Stopped, same listener), calls `Close` on the
stored listener once more and returns what that close returns. When the close fails with
`e`, `Stop` returns `e` and logs nothing; when the close succeeds, `Stop` returns success
and logs one more "closed admin server" event, so it is not a no-op. -/
theorem second_Stop (env : Env) (s0 : Server) (w0 w1 w2 : World)
    (hstart : (Start env s0 w0).ret = Ret.ok) :
    ∃ ln, (Start env s0 w0).s.ln = some ln ∧
      (Stop env (Start env s0 w0).s w1).s.ln = some ln ∧
      (Stop env (Stop env (Start env s0 w0).s w1).s w2).s = (Stop env (Start env s0 w0).s w1).s ∧
      (Stop env (Stop env (Start env s0 w0).s w1).s w2).s.active = 0 ∧
      (Stop env (Stop env (Start env s0 w0).s w1).s w2).ret
        = (match env.close (w2 ++ [Effect.setActive 0]) ln with
           | none => Ret.ok
           | some e => Ret.err e) ∧
      closeCalls (Stop env (Stop env (Start env s0 w0).s w1).s w2).w = closeCalls w2 ++ [ln] ∧
      (∀ e, env.close (w2 ++ [Effect.setActive 0]) ln = some e →
        (Stop env (Stop env (Start env s0 w0).s w1).s w2).ret = Ret.err e ∧
        logged (Stop env (Stop env (Start env s0 w0).s w1).s w2).w = logged w2) ∧
      (env.close (w2 ++ [Effect.setActive 0]) ln = none →
        (Stop env (Stop env (Start env s0 w0).s w1).s w2).ret = Ret.ok ∧
        logged (Stop env (Stop env (Start env s0 w0).s w1).s w2).w
          = logged w2 ++ [(s0.logger,
              { level := Level.info, msg := "closed admin server", key := "bind_addr",
                val := LogVal.str (s0.bindAddr ++ ":" ++ Itoa s0.port) })]) := by
  obtain ⟨ln, _, hs⟩ := Start_ok_listener env s0 w0 hstart
  have h1 : (Stop env (Start env s0 w0).s w1).s
      = { s0 with ln := some ln, active := 0 } := by
    rw [hs]
    cases hc : env.close (w1 ++ [Effect.setActive 0]) ln with
    | none => rw [Stop_of_ok env _ w1 ln rfl hc]
    | some e => rw [Stop_of_error env _ w1 ln e rfl hc]
  rw [h1]
  refine ⟨ln, by rw [hs], rfl, ?_⟩
  cases hc : env.close (w2 ++ [Effect.setActive 0]) ln with
  | none =>
    rw [Stop_of_ok env _ w2 ln rfl hc]
    simp [closeCalls_append, closeCalls, logged_append, logged, closedEvent, getAddress]
  | some e =>
    rw [Stop_of_error env _ w2 ln e rfl hc]
    simp [closeCalls_append, closeCalls, logged_append, logged]

/-- C10 as amended, on the loopback instance, where the second close fails. -/
theorem second_Stop_witness :
    ∃ ln, (Start osEnv loopback []).s.ln = some ln ∧
      (Stop osEnv (Stop osEnv (Start osEnv loopback []).s (Start osEnv loopback []).w).s
        (Stop osEnv (Start osEnv loopback []).s (Start osEnv loopback []).w).w).s.active = 0 ∧
      (Stop osEnv (Stop osEnv (Start osEnv loopback []).s (Start osEnv loopback []).w).s
        (Stop osEnv (Start osEnv loopback []).s (Start osEnv loopback []).w).w).ret
        = Ret.err { text := "use of closed network connection" } := by
  obtain ⟨ln, h1, _, _, h4, h5, _⟩ :=
    second_Stop osEnv loopback [] (Start osEnv loopback []).w
      (Stop osEnv (Start osEnv loopback []).s (Start osEnv loopback []).w).w rfl
  have hln : ln = ephemeral 0 := by
    have h : (Start osEnv loopback []).s.ln = some (ephemeral 0) := by decide
    rw [h] at h1
    exact (Option.some.inj h1).symm
  subst hln
  exact ⟨ephemeral 0, h1, h4, h5.trans (by decide)⟩

/-- C10 fails as stated: where a second close of the listener succeeds, the second `Stop`
returns success without being a no-op, for it calls `Close` again and logs a second
"closed admin server" event. -/
theorem repeated_Stop_not_noop :
    (run stubEnv [Call.start, Call.stop] loopback []).ret = Ret.ok ∧
    (run stubEnv [Call.start, Call.stop, Call.stop] loopback []).ret = Ret.ok ∧
    (run stubEnv [Call.start, Call.stop, Call.stop] loopback []).w
      = (run stubEnv [Call.start, Call.stop] loopback []).w ++
        [Effect.setActive 0, Effect.close (ephemeral 0),
         Effect.log 4 { level := Level.info, msg := "closed admin server",
                        key := "bind_addr", val := LogVal.str "127.0.0.1:0" }] ∧
    closeCalls (run stubEnv [Call.start, Call.stop, Call.stop] loopback []).w
      = [ephemeral 0, ephemeral 0] ∧
    (run stubEnv [Call.start, Call.stop, Call.stop] loopback []).w
      ≠ (run stubEnv [Call.start, Call.stop] loopback []).w := by
  decide

/-! ## Stop against the serving task -/

/-- Effects appended to a world whose added part has no error event. -/
theorem drop_append_clean (n : Nat) (w v : World) (hn : n ≤ w.length)
    (hw : ∀ x ∈ w.drop n, isErrorLog x = false) (hv : ∀ x ∈ v, isErrorLog x = false) :
    (∀ x ∈ (w ++ v).drop n, isErrorLog x = false) ∧ n ≤ (w ++ v).length := by
  constructor
  · intro x hx
    rw [List.drop_append_of_le_length hn] at hx
    rcases List.mem_append.mp hx with h | h
    · exact hw x h
    · exact hv x h
  · simp only [List.length_append]
    omega

/-- The invariant holds when `Stop` is called. -/
theorem Inv_init (s : Server) (w : World) : Inv w.length (Conc.init s w) := by
  simp [Inv, Conc.init]

/-- A step of `Stop` keeps the invariant. -/
theorem Inv_stopStep (env : Env) (n : Nat) (c c1 : Conc) (hi : Inv n c)
    (h : stopStep env c = some c1) : Inv n c1 := by
  obtain ⟨h1, h2, h3, h4, h5, h6, h7⟩ := hi
  unfold stopStep at h
  cases hpc : c.stopPc with
  | store =>
    simp only [hpc, Option.some.injEq] at h
    subst h
    have hd := drop_append_clean n c.w [Effect.setActive 0] h7 h6 (by simp [isErrorLog])
    have hci : c.closeIssued = false := by
      cases hx : c.closeIssued with
      | false => rfl
      | true => exact absurd hpc (h2 hx)
    exact ⟨fun _ => rfl, by simp [hci], by simpa [hci] using h3, h4, h5, hd.1, hd.2⟩
  | close =>
    simp only [hpc] at h
    have ha : c.s.active = 0 := h1 (by simp [hpc])
    cases hln : c.s.ln with
    | none =>
      simp only [hln, Option.some.injEq] at h
      subst h
      exact ⟨fun _ => ha, by simp, h3, h4, h5, h6, h7⟩
    | some ln =>
      simp only [hln] at h
      have hd := drop_append_clean n c.w [Effect.close ln] h7 h6 (by simp [isErrorLog])
      cases hc : env.close c.w ln with
      | none =>
        simp only [hc, Option.some.injEq] at h
        subst h
        exact ⟨fun _ => ha, by simp, fun _ => rfl, h4, h5, hd.1, hd.2⟩
      | some e =>
        simp only [hc, Option.some.injEq] at h
        subst h
        exact ⟨fun _ => ha, by simp, fun _ => rfl, h4, h5, hd.1, hd.2⟩
  | log =>
    simp only [hpc, Option.some.injEq] at h
    subst h
    have ha : c.s.active = 0 := h1 (by simp [hpc])
    have hd := drop_append_clean n c.w
      [Effect.log c.s.logger (closedEvent (getAddress c.s))] h7 h6
      (by simp [isErrorLog, closedEvent])
    exact ⟨fun _ => ha, by simp, h3, h4, h5, hd.1, hd.2⟩
  | done =>
    simp [hpc] at h

/-- A step of the serving task keeps the invariant. -/
theorem Inv_serveStep (serveErr : World → GoError) (n : Nat) (c c1 : Conc) (hi : Inv n c)
    (h : serveStep serveErr c = some c1) : Inv n c1 := by
  obtain ⟨h1, h2, h3, h4, h5, h6, h7⟩ := hi
  unfold serveStep at h
  cases hpc : c.servePc with
  | serving =>
    simp only [hpc] at h
    cases hci : c.closeIssued with
    | false => simp [hci] at h
    | true =>
      simp only [hci, if_true, Option.some.injEq] at h
      subst h
      exact ⟨h1, fun _ => h2 hci, fun _ => rfl, by simp, fun _ => h5 (Or.inl hpc), h6, h7⟩
  | load =>
    simp only [hpc, Option.some.injEq] at h
    subst h
    have hci : c.closeIssued = true := h3 (by simp [hpc])
    have ha : c.s.active = 0 := h1 (h2 hci)
    exact ⟨h1, h2, fun _ => hci, fun _ => by simp [ha], by simp, h6, h7⟩
  | test =>
    simp only [hpc] at h
    have hl : c.loaded = some 0 := h4 (Or.inl hpc)
    have hci : c.closeIssued = true := h3 (by simp [hpc])
    cases he : c.serveErr with
    | none =>
      simp only [he, Option.some.injEq] at h
      subst h
      exact ⟨h1, h2, fun _ => hci, fun _ => hl, by simp, h6, h7⟩
    | some e =>
      have hne : ¬ (c.loaded = some 1) := by simp [hl]
      simp only [he, hne, if_false, Option.some.injEq] at h
      subst h
      exact ⟨h1, h2, fun _ => hci, fun _ => hl, by simp, h6, h7⟩
  | done =>
    simp [hpc] at h

/-- Every execution keeps the invariant. -/
theorem Inv_exec (env : Env) (serveErr : World → GoError) (n : Nat) (sched : List Thread) :
    ∀ c c1 : Conc, Inv n c → exec env serveErr sched c = some c1 → Inv n c1 := by
  induction sched with
  | nil =>
    intro c c1 hi h
    simp only [exec, Option.some.injEq] at h
    exact h ▸ hi
  | cons t ts ih =>
    intro c c1 hi h
    simp only [exec] at h
    cases hs : step env serveErr t c with
    | none => simp [hs] at h
    | some c2 =>
      simp only [hs] at h
      refine ih c2 c1 ?_ h
      cases t with
      | stop => exact Inv_stopStep env n c c2 hi hs
      | serve => exact Inv_serveStep serveErr n c c2 hi hs

/-- The steps of `Stop`, run without interruption, are `Stop`. -/
theorem stop_thread_is_Stop (env : Env) (serveErr : World → GoError) (s : Server) (w : World) :
    ∃ sched c, (∀ t ∈ sched, t = Thread.stop) ∧
      exec env serveErr sched (Conc.init s w) = some c ∧ c.stopPc = StopPc.done ∧
      c.s = (Stop env s w).s ∧ c.w = (Stop env s w).w ∧ c.stopRet = some (Stop env s w).ret := by
  cases hln : s.ln with
  | none =>
    rw [Stop_of_nil env s w hln]
    exact ⟨[Thread.stop, Thread.stop],
      { Conc.init s w with
        s := { s with active := 0 }, w := w ++ [Effect.setActive 0],
        stopPc := StopPc.done, stopRet := some Ret.panic },
      by simp, by simp [exec, step, stopStep, Conc.init, hln], rfl, rfl, rfl, rfl⟩
  | some ln =>
    cases hc : env.close (w ++ [Effect.setActive 0]) ln with
    | none =>
      rw [Stop_of_ok env s w ln hln hc]
      exact ⟨[Thread.stop, Thread.stop, Thread.stop],
        { Conc.init s w with
          s := { s with active := 0 }
          w := w ++ [Effect.setActive 0, Effect.close ln,
                     Effect.log s.logger (closedEvent (getAddress s))]
          stopPc := StopPc.done, stopRet := some Ret.ok, closeIssued := true },
        by simp, by simp [exec, step, stopStep, Conc.init, hln, hc, getAddress],
        rfl, rfl, rfl, rfl⟩
    | some e =>
      rw [Stop_of_error env s w ln e hln hc]
      exact ⟨[Thread.stop, Thread.stop],
        { Conc.init s w with
          s := { s with active := 0 }
          w := w ++ [Effect.setActive 0, Effect.close ln]
          stopPc := StopPc.done, stopRet := some (Ret.err e), closeIssued := true },
        by simp, by simp [exec, step, stopStep, Conc.init, hln, hc], rfl, rfl, rfl, rfl⟩

/-- The steps of the serving task after `Serve` returned `e`, run without interruption,
are `serveTask`. -/
theorem serve_thread_is_serveTask (env : Env) (serveErr : World → GoError) (c : Conc)
    (e : GoError) (hpc : c.servePc = ServePc.load) (he : c.serveErr = some e) :
    ∃ c1, exec env serveErr [Thread.serve, Thread.serve] c = some c1 ∧
      c1.servePc = ServePc.done ∧ c1.s = c.s ∧ c1.w = serveTask c.s (some e) c.w := by
  by_cases ha : c.s.active = 1
  · exact ⟨{ c with loaded := some 1, servePc := ServePc.done,
                    w := c.w ++ [Effect.log c.s.logger (serverErrorEvent e)] },
      by simp [exec, step, serveStep, hpc, he, ha], rfl, rfl, by simp [serveTask, ha]⟩
  · exact ⟨{ c with loaded := some c.s.active, servePc := ServePc.done },
      by simp [exec, step, serveStep, hpc, he, ha], rfl, rfl, by simp [serveTask, ha]⟩

/-- C9: `Stop` is called on an instance while the serving task is blocked in the serve
loop, and the serve loop fails only through the close of the listener by `Stop`. Then in
every interleaving of the steps of `Stop` (store Stopped, close the listener, log) with
the steps of the serving task (the serve loop returns an error, load the status, log if
it is Running), and at every point of it, no error-level event has been logged, the
"admin server error" event in particular, and the status the serving task has loaded, if
it has, is Stopped. This holds for every instance, one on which `Start` has succeeded in
particular. -/
theorem Stop_race_no_error (env : Env) (serveErr : World → GoError) (s : Server) (w : World)
    (sched : List Thread) (c : Conc)
    (h : exec env serveErr sched (Conc.init s w) = some c) :
    (∀ x ∈ c.w.drop w.length, isErrorLog x = false) ∧
    (∀ l e, Effect.log l (serverErrorEvent e) ∉ c.w.drop w.length) ∧
    (c.loaded = none ∨ c.loaded = some 0) ∧
    (c.servePc = ServePc.done → c.loaded = some 0) := by
  obtain ⟨_, _, _, h4, h5, h6, _⟩ :=
    Inv_exec env serveErr w.length sched (Conc.init s w) c (Inv_init s w) h
  refine ⟨h6, ?_, ?_, fun hd => h4 (Or.inr hd)⟩
  · intro l e hm
    have := h6 _ hm
    simp [isErrorLog, serverErrorEvent] at this
  · cases hpc : c.servePc with
    | serving => exact Or.inl (h5 (Or.inl hpc))
    | load => exact Or.inl (h5 (Or.inr hpc))
    | test => exact Or.inr (h4 (Or.inl hpc))
    | done => exact Or.inr (h4 (Or.inr hpc))

/-- C9 on the started loopback instance, for a complete interleaving. -/
theorem Stop_race_no_error_witness :
    exec osEnv closedConnErr raceSchedule
        (Conc.init (Start osEnv loopback []).s (Start osEnv loopback []).w) = some raceFinal ∧
    (∀ x ∈ raceFinal.w.drop (Start osEnv loopback []).w.length, isErrorLog x = false) ∧
    raceFinal.loaded = some 0 :=
  ⟨by decide,
   (Stop_race_no_error osEnv closedConnErr (Start osEnv loopback []).s
      (Start osEnv loopback []).w raceSchedule raceFinal (by decide)).1,
   (Stop_race_no_error osEnv closedConnErr (Start osEnv loopback []).s
      (Start osEnv loopback []).w raceSchedule raceFinal (by decide)).2.2.2 rfl⟩

/-! ## Sanity checks on concrete runs -/

/-- The address of the loopback instance. -/
theorem getAddress_loopback : getAddress loopback = "127.0.0.1:0" := by decide

/-- A negative number is rendered with a minus sign. -/
theorem Itoa_negative : Itoa (-15280) = "-15280" := by decide

/-- The loopback instance is the one `New` builds. -/
theorem New_loopback : (New loopbackCfg 1 2 3 4 []).1 = some loopback := by decide

/-- With real sockets a second `Stop` surfaces the error of the second close. -/
theorem osEnv_repeated_Stop :
    (run osEnv [Call.start, Call.stop, Call.stop] loopback []).ret
      = Ret.err { text := "use of closed network connection" } := by decide

/-- A `Stop` without a `Start` stores the status and then panics on the nil listener. -/
theorem Stop_without_Start :
    run osEnv [Call.stop] loopback []
      = { s := loopback, w := [Effect.setActive 0], ret := Ret.panic } := by decide

/-- The serving task stays blocked while `Stop` has not closed the listener. -/
theorem serve_blocked_before_close :
    exec osEnv closedConnErr [Thread.serve] (Conc.init (Start osEnv loopback []).s []) = none ∧
    exec osEnv closedConnErr [Thread.stop, Thread.serve]
      (Conc.init (Start osEnv loopback []).s []) = none := by decide

end adminserver
